import Mathlib

/-!
# Pipe: a shallow embedding of `Pipe.hpp` and `StaticPipe.hpp`

The two headers wrap an anonymous POSIX pipe.  Every member function is
embedded as a function on an explicit world: the state of the operating
system, the list of system calls issued so far and the lines printed on
the standard output.  The operating system is a parameter (`OS σ`), so a
statement proved for every `os` holds for every outcome of the system
calls; `Kernel` is a small reference model of the pipe and descriptor
semantics of Linux used where a claim depends on them.
-/

namespace PipeSpec

/-! ## Plain data -/

/-- One `char` of a `std::string`, seen as a byte. -/
abbrev Byte := Fin 256

/-- The contents of a `std::string` used as a payload. -/
abbrev Bytes := List Byte

/-- `PIPE_MAX_BUFFER_SIZE`, the value of `Pipe::buffer_size`. -/
def PIPE_MAX_BUFFER_SIZE : Nat := 8192

/-- The access mode `O_RDONLY` of `<fcntl.h>`. -/
def O_RDONLY : Int := 0

/-- The access mode `O_WRONLY` of `<fcntl.h>`. -/
def O_WRONLY : Int := 1

/-- Conversion of an integer to the 32-bit `int` of the platform
(two's complement wrap-around), as done when a `ssize_t` is returned
through an `int`. -/
def toInt32 (x : Int) : Int := (x + 2 ^ 31) % 2 ^ 32 - 2 ^ 31

/-- The set of values of the 32-bit `int`. -/
def isInt32 (x : Int) : Prop := -(2 ^ 31) ≤ x ∧ x < 2 ^ 31

instance (x : Int) : Decidable (isInt32 x) := by
  unfold isInt32; infer_instance

/-! ## `snprintf` with the format `"/proc/%d/fd/%d"` -/

/-- The conversion `%d` of `printf`: the decimal digits of the value,
preceded by a minus sign when it is negative. -/
def decimal (n : Int) : List Char :=
  if n < 0 then '-' :: Nat.toDigits 10 n.natAbs else Nat.toDigits 10 n.natAbs

/-- The text that the format `Pipe::format_str`, `"/proc/%d/fd/%d"`,
produces when nothing limits its length. -/
def format_str (_pid _fd : Int) : List Char :=
  "/proc/".toList ++ decimal _pid ++ "/fd/".toList ++ decimal _fd

/-- The call `snprintf(buffer, size, format_str, _pid, _fd)` on a zeroed
buffer followed by reading the buffer back as a C string: at most
`size - 1` characters of the formatted text are kept. -/
def snprintf (size : Nat) (_pid _fd : Int) : List Char :=
  (format_str _pid _fd).take (size - 1)

/-- The function `Pipe::get_format_str`: formats into a 64-byte buffer. -/
def Pipe.get_format_str (_pid _fd : Int) : String :=
  String.mk (snprintf 64 _pid _fd)

/-! ## The operating system as seen by the program -/

/-- The system calls used by the two headers.  A result `none` stands for
a call that blocks for ever.  `pipe` gives the return code together with
the contents of the two-element array after the call; `read` gives the
return value together with the bytes stored into the buffer. -/
structure OS (σ : Type) where
  pipe : σ → (Int × Int × Int) × σ
  sys_open : σ → String → Int → Option (Int × σ)
  read : σ → Int → Nat → Option ((Int × Bytes) × σ)
  write : σ → Int → Bytes → Option (Int × σ)
  close : σ → Int → Int × σ
  getpid : σ → Int

/-- A system call as issued by the program, with the value it returned
(`none`: the call never returned). -/
inductive Event where
  | sys_pipe (rc fd0 fd1 : Int)
  | sys_open (path : String) (flags : Int) (ret : Option Int)
  | sys_read (fd : Int) (count : Nat) (ret : Option Int)
  | sys_write (fd : Int) (data : Bytes) (ret : Option Int)
  | sys_close (fd : Int)
  | sys_getpid (ret : Int)
  deriving DecidableEq

/-- The world a member function runs in: the state of the operating
system, the system calls issued so far (oldest first) and the lines
written to `std::cout`. -/
@[ext]
structure World (σ : Type) where
  os : σ
  trace : List Event
  out : List String
  deriving DecidableEq

/-- How a call of a function of the program ends: it returns a value, it
leaves by a `std::runtime_error` carrying `what`, or it never returns
because a system call blocks. -/
inductive Outcome (σ α : Type) where
  | ret (a : α) (w : World σ)
  | throw (what : String) (w : World σ)
  | hang (w : World σ)
  deriving DecidableEq

/-- The world in which an outcome is observed. -/
def Outcome.world {σ α : Type} : Outcome σ α → World σ
  | .ret _ w => w
  | .throw _ w => w
  | .hang w => w

/-- The statement `std::cout << line << std::endl`. -/
def World.cout {σ : Type} (w : World σ) (line : String) : World σ :=
  { w with out := w.out ++ [line] }

/-- The call `pipe(fd)`. -/
def World.pipe {σ : Type} (os : OS σ) (w : World σ) : (Int × Int × Int) × World σ :=
  match os.pipe w.os with
  | ((rc, fd0, fd1), s) =>
    ((rc, fd0, fd1), { w with os := s, trace := w.trace ++ [Event.sys_pipe rc fd0 fd1] })

/-- The call `::open(path, flags)`. -/
def World.sys_open {σ : Type} (os : OS σ) (w : World σ) (path : String) (flags : Int) :
    Option Int × World σ :=
  match os.sys_open w.os path flags with
  | none => (none, { w with trace := w.trace ++ [Event.sys_open path flags none] })
  | some (fd, s) =>
    (some fd, { w with os := s, trace := w.trace ++ [Event.sys_open path flags (some fd)] })

/-- The call `::read(fd, buf, count)`. -/
def World.read {σ : Type} (os : OS σ) (w : World σ) (fd : Int) (count : Nat) :
    Option (Int × Bytes) × World σ :=
  match os.read w.os fd count with
  | none => (none, { w with trace := w.trace ++ [Event.sys_read fd count none] })
  | some ((n, data), s) =>
    (some (n, data), { w with os := s, trace := w.trace ++ [Event.sys_read fd count (some n)] })

/-- The call `::write(fd, data.c_str(), data.size())`. -/
def World.write {σ : Type} (os : OS σ) (w : World σ) (fd : Int) (data : Bytes) :
    Option Int × World σ :=
  match os.write w.os fd data with
  | none => (none, { w with trace := w.trace ++ [Event.sys_write fd data none] })
  | some (n, s) =>
    (some n, { w with os := s, trace := w.trace ++ [Event.sys_write fd data (some n)] })

/-- The call `close(fd)`; its return value is ignored by the program. -/
def World.close {σ : Type} (os : OS σ) (w : World σ) (fd : Int) : World σ :=
  { w with os := (os.close w.os fd).2, trace := w.trace ++ [Event.sys_close fd] }

/-- The call `getpid()`. -/
def World.getpid {σ : Type} (os : OS σ) (w : World σ) : Int × World σ :=
  (os.getpid w.os, { w with trace := w.trace ++ [Event.sys_getpid (os.getpid w.os)] })

/-! ## The class `Pipe` -/

/-- The data members of `Pipe`. -/
structure Pipe where
  pid : Int
  write_fd : Int
  read_fd : Int
  buffer : Bytes
  deriving DecidableEq

/-- The contents of a buffer of `size` bytes after `memset(buf, 0, size)`
and a `read` that stored `data` at its start. -/
def fill_buffer (size : Nat) (data : Bytes) : Bytes :=
  (data ++ List.replicate (size - data.length) 0).take size

/-- The constructor `std::string(buf, bytes)` guarded by `bytes > 0`, the
common tail of both `read` functions. -/
def string_of_buffer (buf : Bytes) (bytes : Int) : Bytes :=
  if bytes > 0 then buf.take bytes.toNat else []

/-- The function `Pipe::open`. -/
def Pipe.open {σ : Type} (os : OS σ) (_pid _fd _flags : Int) (w : World σ) : Outcome σ Int :=
  let path := Pipe.get_format_str _pid _fd
  match World.sys_open os w path _flags with
  | (none, w1) => .hang w1
  | (some fd, w1) =>
    if fd ≤ 0 then .throw ("Error: Can't open pipe. Path: " ++ path) w1
    else .ret fd w1

/-- The function `Pipe::create_pipe`. -/
def Pipe.create_pipe {σ : Type} (os : OS σ) (w : World σ) : Outcome σ (Int × Int) :=
  match World.pipe os w with
  | ((rc, fd0, fd1), w1) =>
    if rc ≠ 0 then .throw "Error while creating new pipe." w1
    else .ret (fd0, fd1) w1

/-- The destructor `Pipe::~Pipe`, as a transition on the object and the
world: the data members are left as they are. -/
def Pipe.dtor {σ : Type} (os : OS σ) (p : Pipe) (w : World σ) : Pipe × World σ :=
  let w1 := if p.write_fd > 0 then World.close os w p.write_fd else w
  let w2 := if p.read_fd > 0 then World.close os w1 p.read_fd else w1
  (p, w2)

/-- The function `Pipe::init`: its outcome and the object as it leaves it. -/
def Pipe.init {σ : Type} (os : OS σ) (p : Pipe) (w : World σ) : Outcome σ Unit × Pipe :=
  match Pipe.create_pipe os w with
  | .hang w1 => (.hang w1, p)
  | .throw what w1 => (.throw what w1, p)
  | .ret fds w1 =>
    let p1 := { p with read_fd := fds.1 }
    let p2 := { p1 with write_fd := fds.2 }
    match World.getpid os w1 with
    | (id, w2) => (.ret () w2, { p2 with pid := id })

/-- The default constructor `Pipe::Pipe()`; the buffer is not
initialised by it, `buffer` stands for whatever it holds. -/
def Pipe.ctor (buffer : Bytes) : Pipe :=
  { pid := -1, write_fd := -1, read_fd := -1, buffer := buffer }

/-- The constructor `Pipe::Pipe(int _pid, int _write_fd)`. -/
def Pipe.ctor_attach {σ : Type} (os : OS σ) (buffer : Bytes) (_pid _write_fd : Int)
    (w : World σ) : Outcome σ Pipe :=
  let p : Pipe := { pid := _pid, write_fd := -1, read_fd := -1, buffer := buffer }
  match Pipe.open os p.pid _write_fd O_WRONLY w with
  | .hang w1 => .hang w1
  | .throw what w1 => .ret p (w1.cout what)
  | .ret fd w1 => .ret { p with write_fd := fd } w1

/-- The static function `Pipe::read(int _pid, int _read_fd)`. -/
def Pipe.static_read {σ : Type} (os : OS σ) (_pid _read_fd : Int) (w : World σ) :
    Outcome σ Bytes :=
  match Pipe.open os _pid _read_fd O_RDONLY w with
  | .hang w1 => .hang w1
  | .throw what w1 =>
    -- the handler prints, `rfd` still holds -1
    let rfd : Int := -1
    let w2 := w1.cout what
    let w3 := if rfd > 0 then World.close os w2 rfd else w2
    .ret [] w3
  | .ret rfd w1 =>
    if rfd ≤ 0 then
      let w2 := w1.cout "Cannot read, the pipe read file descriptor is not initialized."
      let w3 := if rfd > 0 then World.close os w2 rfd else w2
      .ret [] w3
    else
      match World.read os w1 rfd PIPE_MAX_BUFFER_SIZE with
      | (none, w2) => .hang w2
      | (some (bytes, data), w2) =>
        let buff := fill_buffer PIPE_MAX_BUFFER_SIZE data
        let result := string_of_buffer buff bytes
        .ret result (World.close os w2 rfd)

/-- The static function `Pipe::write(int _pid, int _write_fd, std::string data)`. -/
def Pipe.static_write {σ : Type} (os : OS σ) (_pid _write_fd : Int) (data : Bytes)
    (w : World σ) : Outcome σ Int :=
  let bytes0 : Int := -1
  match Pipe.open os _pid _write_fd O_WRONLY w with
  | .hang w1 => .hang w1
  | .throw what w1 =>
    let wfd : Int := -1
    let w2 := w1.cout what
    let w3 := if wfd > 0 then World.close os w2 wfd else w2
    .ret bytes0 w3
  | .ret wfd w1 =>
    if wfd ≤ 0 then
      let w2 := w1.cout "Cannot open pipe, the pipe write file descriptor is not initialized."
      let w3 := if wfd > 0 then World.close os w2 wfd else w2
      .ret bytes0 w3
    else
      match World.write os w1 wfd data with
      | (none, w2) => .hang w2
      | (some n, w2) =>
        let bytes := toInt32 n
        let w3 := if wfd > 0 then World.close os w2 wfd else w2
        .ret bytes w3

/-- The member function `Pipe::read()`: its outcome and the object as it
leaves it. -/
def Pipe.read {σ : Type} (os : OS σ) (p : Pipe) (w : World σ) : Outcome σ Bytes × Pipe :=
  if p.read_fd ≤ 0 then
    (.throw "Cannot read, the pipe read file descriptor is not initialized." w, p)
  else
    match World.read os w p.read_fd PIPE_MAX_BUFFER_SIZE with
    | (none, w1) => (.hang w1, { p with buffer := fill_buffer PIPE_MAX_BUFFER_SIZE [] })
    | (some (bytes, data), w1) =>
      let p1 := { p with buffer := fill_buffer PIPE_MAX_BUFFER_SIZE data }
      (.ret (string_of_buffer p1.buffer bytes) w1, p1)

/-- The member function `Pipe::write(std::string data)`: its outcome and
the object as it leaves it. -/
def Pipe.write {σ : Type} (os : OS σ) (p : Pipe) (data : Bytes) (w : World σ) :
    Outcome σ Int × Pipe :=
  if p.write_fd ≤ 0 then
    (.throw "Cannot write, the pipe write file descriptor is not initialized." w, p)
  else
    match World.write os w p.write_fd data with
    | (none, w1) => (.hang w1, p)
    | (some bytes, w1) => (.ret (toInt32 bytes) w1, p)

/-- The member function `Pipe::print`. -/
def Pipe.print {σ : Type} (p : Pipe) (w : World σ) : World σ :=
  ((w.cout ("pid: " ++ String.mk (decimal p.pid))).cout
    ("write_fd: " ++ String.mk (decimal p.write_fd))).cout
    ("read_fd: " ++ String.mk (decimal p.read_fd))

/-- The member function `Pipe::get_pid`. -/
def Pipe.get_pid (p : Pipe) : Int := p.pid

/-- The member function `Pipe::get_write_fd`. -/
def Pipe.get_write_fd (p : Pipe) : Int := p.write_fd

/-- The member function `Pipe::get_read_fd`. -/
def Pipe.get_read_fd (p : Pipe) : Int := p.read_fd

/-! ## The class `StaticPipe` -/

/-- The data member of `StaticPipe`. -/
structure StaticPipe where
  pipe : Pipe

/-- The storage of the function-local static object before its
construction: zero-initialised. -/
def StaticPipe.storage : Bytes := List.replicate PIPE_MAX_BUFFER_SIZE 0

/-- The constructor `StaticPipe::StaticPipe()`: the member is
default-constructed, then `pipe.init()` runs; when `init` throws, the
member is destroyed while the exception leaves the constructor. -/
def StaticPipe.ctor {σ : Type} (os : OS σ) (w : World σ) : Outcome σ StaticPipe :=
  match Pipe.init os (Pipe.ctor StaticPipe.storage) w with
  | (.ret _ w1, p) => .ret { pipe := p } w1
  | (.throw what w1, p) => .throw what (Pipe.dtor os p w1).2
  | (.hang w1, _) => .hang w1

/-- The member function `StaticPipe::get_pipe`. -/
def StaticPipe.get_pipe (sp : StaticPipe) : Pipe := sp.pipe

/-- The function `StaticPipe::instance`.  The argument `spipe` is the
function-local static: `none` until its construction has completed (a
construction left by an exception is tried again at the next call). -/
def StaticPipe.instance {σ : Type} (os : OS σ) (spipe : Option StaticPipe) (w : World σ) :
    Outcome σ StaticPipe :=
  match spipe with
  | some sp => .ret sp w
  | none => StaticPipe.ctor os w

/-- The static member functions of `StaticPipe`. -/
inductive Op where
  | inst
  | read
  | get_pid
  | get_write_fd
  | get_read_fd
  | write (data : Bytes)
  | print
  deriving DecidableEq

/-- The value a static member function of `StaticPipe` returns. -/
inductive Val where
  | ref
  | bytes (b : Bytes)
  | int (n : Int)
  | void
  deriving DecidableEq

/-- The state of a process that uses `StaticPipe`: the function-local
static of `instance` and the world. -/
structure Process (σ : Type) where
  spipe : Option StaticPipe
  world : World σ

/-- One call of a static member function of `StaticPipe`: every one of
them starts with `StaticPipe::instance()` and forwards to the `Pipe`. -/
def StaticPipe.call {σ : Type} (os : OS σ) (op : Op) (st : Process σ) :
    Outcome σ Val × Option StaticPipe :=
  match StaticPipe.instance os st.spipe st.world with
  | .hang w1 => (.hang w1, st.spipe)
  | .throw what w1 => (.throw what w1, st.spipe)
  | .ret sp w1 =>
    match op with
    | Op.inst => (.ret Val.ref w1, some sp)
    | Op.read =>
      match Pipe.read os sp.get_pipe w1 with
      | (.hang w2, p1) => (.hang w2, some { sp with pipe := p1 })
      | (.throw what w2, p1) => (.throw what w2, some { sp with pipe := p1 })
      | (.ret result w2, p1) => (.ret (Val.bytes result) w2, some { sp with pipe := p1 })
    | Op.get_pid => (.ret (Val.int sp.get_pipe.get_pid) w1, some sp)
    | Op.get_write_fd => (.ret (Val.int sp.get_pipe.get_write_fd) w1, some sp)
    | Op.get_read_fd => (.ret (Val.int sp.get_pipe.get_read_fd) w1, some sp)
    | Op.write data =>
      match Pipe.write os sp.get_pipe data w1 with
      | (.hang w2, p1) => (.hang w2, some { sp with pipe := p1 })
      | (.throw what w2, p1) => (.throw what w2, some { sp with pipe := p1 })
      | (.ret n w2, p1) => (.ret (Val.int n) w2, some { sp with pipe := p1 })
    | Op.print => (.ret Val.void (Pipe.print sp.get_pipe w1), some sp)

/-- The outcome is an exception. -/
def Outcome.is_throw {σ α : Type} : Outcome σ α → Bool
  | .throw _ _ => true
  | _ => false

/-- The outcome is a call that never returns. -/
def Outcome.is_hang {σ α : Type} : Outcome σ α → Bool
  | .hang _ => true
  | _ => false

/-- A sequence of calls of static member functions of `StaticPipe` in one
process.  An exception is taken to be caught by the caller, who goes on
with the next call; after a call that never returns nothing else runs.
The result lists every call made with its outcome. -/
def StaticPipe.run {σ : Type} (os : OS σ) : List Op → Process σ →
    List (Op × Outcome σ Val) × Process σ
  | [], st => ([], st)
  | op :: rest, st =>
    match StaticPipe.call os op st with
    | (out, sp) =>
      if out.is_hang then ([(op, out)], { spipe := sp, world := out.world })
      else
        match StaticPipe.run os rest { spipe := sp, world := out.world } with
        | (outs, st1) => ((op, out) :: outs, st1)

/-! ## A reference model of the kernel

Only one process runs; no other process reads or writes in between, so a
call that would wait for another process never returns. -/

/-- What an open descriptor refers to: one end of the pipe numbered `id`,
or the null device. -/
inductive FdObj where
  | pipe_read (id : Nat)
  | pipe_write (id : Nat)
  | null
  deriving DecidableEq

/-- The state of the reference kernel: the id of the running process, its
descriptor table, the pending bytes of every pipe (indexed by pipe id),
the limit on descriptor numbers and the descriptor tables of the other
processes. -/
structure Kernel where
  pid : Int
  fds : List (Int × FdObj)
  pipes : List Bytes
  nofile : Nat
  procs : List (Int × List (Int × FdObj))
  deriving DecidableEq

/-- The capacity of a pipe: 16 pages of 4096 bytes. -/
def Kernel.PIPE_CAPACITY : Nat := 65536

/-- The largest count one `read` or `write` transfers (`MAX_RW_COUNT`). -/
def Kernel.MAX_RW_COUNT : Nat := 0x7ffff000

/-- The lowest descriptor number below `nofile` that is not in the table. -/
def Kernel.free_fd (nofile : Nat) (fds : List (Int × FdObj)) : Option Int :=
  match (List.range nofile).find? (fun (n : Nat) => !(fds.any (fun e => e.1 == Int.ofNat n))) with
  | some n => some (Int.ofNat n)
  | none => none

/-- Some process holds a descriptor on `obj`. -/
def Kernel.held (k : Kernel) (obj : FdObj) : Bool :=
  k.fds.any (fun e => e.2 == obj) || k.procs.any (fun pr => pr.2.any (fun e => e.2 == obj))

/-- The pending bytes of pipe `id`. -/
def Kernel.pending (k : Kernel) (id : Nat) : Bytes := k.pipes.getD id []

/-- The path under which the kernel shows descriptor `fd` of process `pid`. -/
def Kernel.proc_path (pid fd : Int) : String := String.mk (format_str pid fd)

/-- The object that a path of the form `/proc/<pid>/fd/<fd>` names, if any. -/
def Kernel.resolve (k : Kernel) (path : String) : Option FdObj :=
  match ((k.pid, k.fds) :: k.procs).findSome?
      (fun pr => pr.2.find? (fun e => Kernel.proc_path pr.1 e.1 == path)) with
  | some e => some e.2
  | none => none

/-- The system call `pipe`: both ends get the lowest free descriptors; the
array is left as it is when two descriptors are not available. -/
def Kernel.sys_pipe (k : Kernel) : (Int × Int × Int) × Kernel :=
  match Kernel.free_fd k.nofile k.fds with
  | none => ((-1, -1, 0), k)
  | some r =>
    match Kernel.free_fd k.nofile ((r, FdObj.pipe_read k.pipes.length) :: k.fds) with
    | none => ((-1, -1, 0), k)
    | some w =>
      ((0, r, w),
       { k with
         fds := (r, FdObj.pipe_read k.pipes.length) :: (w, FdObj.pipe_write k.pipes.length) :: k.fds,
         pipes := k.pipes ++ [[]] })

/-- The system call `open` on a path below `/proc`: a pipe is opened as a
FIFO (the call waits for the other end to be held), in the mode asked
for. -/
def Kernel.sys_open (k : Kernel) (path : String) (flags : Int) : Option (Int × Kernel) :=
  match Kernel.resolve k path with
  | none => some (-1, k)
  | some obj =>
    let target : Option FdObj :=
      match obj with
      | FdObj.null => some FdObj.null
      | FdObj.pipe_read id | FdObj.pipe_write id =>
        if flags = O_WRONLY then
          (if k.held (FdObj.pipe_read id) then some (FdObj.pipe_write id) else none)
        else
          (if k.held (FdObj.pipe_write id) then some (FdObj.pipe_read id) else none)
    match target with
    | none => none
    | some t =>
      match Kernel.free_fd k.nofile k.fds with
      | none => some (-1, k)
      | some fd => some (fd, { k with fds := (fd, t) :: k.fds })

/-- The system call `read`. -/
def Kernel.sys_read (k : Kernel) (fd : Int) (count : Nat) : Option ((Int × Bytes) × Kernel) :=
  match k.fds.lookup fd with
  | none => some ((-1, []), k)
  | some FdObj.null => some ((0, []), k)
  | some (FdObj.pipe_write _) => some ((-1, []), k)
  | some (FdObj.pipe_read id) =>
    let buf := k.pending id
    if buf = [] then
      (if k.held (FdObj.pipe_write id) then none else some ((0, []), k))
    else
      let n := min (min count Kernel.MAX_RW_COUNT) buf.length
      some (((n : Int), buf.take n), { k with pipes := k.pipes.set id (buf.drop n) })

/-- The system call `write`; the signal `SIGPIPE` is taken to be ignored. -/
def Kernel.sys_write (k : Kernel) (fd : Int) (data : Bytes) : Option (Int × Kernel) :=
  match k.fds.lookup fd with
  | none => some (-1, k)
  | some FdObj.null => some ((min data.length Kernel.MAX_RW_COUNT : Nat), k)
  | some (FdObj.pipe_read _) => some (-1, k)
  | some (FdObj.pipe_write id) =>
    if data = [] then some (0, k)
    else if !(k.held (FdObj.pipe_read id)) then some (-1, k)
    else if data.length ≤ Kernel.PIPE_CAPACITY - (k.pending id).length then
      some ((data.length : Int), { k with pipes := k.pipes.set id (k.pending id ++ data) })
    else none

/-- The system call `close`. -/
def Kernel.sys_close (k : Kernel) (fd : Int) : Int × Kernel :=
  match k.fds.lookup fd with
  | none => (-1, k)
  | some _ => (0, { k with fds := k.fds.filter (fun e => !(e.1 == fd)) })

/-- The reference kernel as an operating system. -/
def Kernel.os : OS Kernel where
  pipe := Kernel.sys_pipe
  sys_open := Kernel.sys_open
  read := Kernel.sys_read
  write := Kernel.sys_write
  close := Kernel.sys_close
  getpid := Kernel.pid

/-- The descriptor numbers that are open in the process. -/
def Kernel.open_fds (k : Kernel) : List Int := k.fds.map Prod.fst

/-! ## Concrete states used in the examples -/

/-- A world with nothing issued or printed yet. -/
def World.start {σ : Type} (s : σ) : World σ := { os := s, trace := [], out := [] }

/-- The bytes of a text of plain characters. -/
def bytes_of (s : String) : Bytes := s.toList.map (fun c => Fin.ofNat c.toNat)

/-- A process with the three standard streams open on the null device. -/
def Kernel.standard : Kernel :=
  { pid := 100, fds := [(0, FdObj.null), (1, FdObj.null), (2, FdObj.null)],
    pipes := [], nofile := 1024, procs := [] }

/-- A process started with its standard input closed. -/
def Kernel.no_stdin : Kernel :=
  { pid := 100, fds := [(1, FdObj.null), (2, FdObj.null)],
    pipes := [], nofile := 1024, procs := [] }

/-- A process with its standard input closed, next to a process 200 that
holds both ends of a pipe (descriptors 3 and 4) with two bytes pending. -/
def Kernel.no_stdin_peer : Kernel :=
  { pid := 100, fds := [(1, FdObj.null), (2, FdObj.null)],
    pipes := [bytes_of "hi"], nofile := 1024,
    procs := [(200, [(3, FdObj.pipe_read 0), (4, FdObj.pipe_write 0)])] }

/-- The state of `Kernel.standard` after one successful `pipe`. -/
def Kernel.piped : Kernel :=
  { pid := 100,
    fds := [(3, FdObj.pipe_read 0), (4, FdObj.pipe_write 0),
            (0, FdObj.null), (1, FdObj.null), (2, FdObj.null)],
    pipes := [[]], nofile := 1024, procs := [] }

/-- An operating system whose `write` accepts at most three bytes per
call (as a write cut short by a signal does) and whose state is the bytes
accepted so far; the other calls fail. -/
def OS.short : OS Bytes where
  pipe := fun s => ((-1, -1, 0), s)
  sys_open := fun s _ _ => some (-1, s)
  read := fun s _ _ => some ((-1, []), s)
  write := fun s _ data => some (((min data.length 3 : Nat) : Int), s ++ data.take 3)
  close := fun s _ => (-1, s)
  getpid := fun _ => 1

/-- What `write` may return on Linux when `data` is offered: -1 on an
error, otherwise the number of bytes accepted, at most the length of
`data` and at most `MAX_RW_COUNT`. -/
def write_contract (data : Bytes) (k : Int) : Prop :=
  -1 ≤ k ∧ k ≤ data.length ∧ k ≤ 0x7ffff000

instance (data : Bytes) (k : Int) : Decidable (write_contract data k) := by
  unfold write_contract; infer_instance

/-- The value a call returned, if it returned. -/
def Outcome.value {σ α : Type} : Outcome σ α → Option α
  | .ret a _ => some a
  | _ => none

/-- In the kernel state, descriptors `r` and `w` of the process are the
read end and the write end of pipe `id`, which holds the bytes `buf`. -/
def Kernel.linked (k : Kernel) (r w : Int) (id : Nat) (buf : Bytes) : Prop :=
  k.fds.lookup r = some (FdObj.pipe_read id) ∧ k.fds.lookup w = some (FdObj.pipe_write id)
    ∧ id < k.pipes.length ∧ k.pending id = buf

/-! ## Path construction -/

theorem toDigitsCore_length_le (fuel : Nat) :
    ∀ (n k : Nat) (ds : List Char), 0 < k → n < 10 ^ k →
      (Nat.toDigitsCore 10 fuel n ds).length ≤ k + ds.length := by
  induction fuel with
  | zero => intro n k ds _ _; simp [Nat.toDigitsCore]
  | succ fuel ih =>
    intro n k ds hk hn
    simp only [Nat.toDigitsCore]
    by_cases h0 : n / 10 = 0
    · simp [h0]; omega
    · simp only [h0, if_false]
      have hk2 : 2 ≤ k := by
        by_contra hlt
        have : k = 1 := by omega
        subst this
        simp at hn
        omega
      have hdiv : n / 10 < 10 ^ (k - 1) := by
        have : 10 ^ k = 10 ^ (k - 1) * 10 := by
          rw [← pow_succ]; congr 1; omega
        rw [Nat.div_lt_iff_lt_mul (by norm_num)]
        omega
      have := ih (n / 10) (k - 1) (Nat.digitChar (n % 10) :: ds) (by omega) hdiv
      simp only [List.length_cons] at this
      omega

theorem decimal_length_le (n : Int) (h : isInt32 n) : (decimal n).length ≤ 11 := by
  have habs : n.natAbs < 10 ^ 10 := by
    unfold isInt32 at h
    omega
  have hd : (Nat.toDigits 10 n.natAbs).length ≤ 10 := by
    have := toDigitsCore_length_le (n.natAbs + 1) n.natAbs 10 [] (by norm_num) habs
    simpa [Nat.toDigits] using this
  unfold decimal
  split
  · simp only [List.length_cons]; omega
  · omega

theorem format_str_length_le (_pid _fd : Int) (hp : isInt32 _pid) (hf : isInt32 _fd) :
    (format_str _pid _fd).length ≤ 32 := by
  have h1 := decimal_length_le _pid hp
  have h2 := decimal_length_le _fd hf
  have e1 : "/proc/".toList.length = 6 := by decide
  have e2 : "/fd/".toList.length = 4 := by decide
  simp only [format_str, List.length_append, e1, e2]
  omega

theorem get_format_str_exact (_pid _fd : Int) (hp : isInt32 _pid) (hf : isInt32 _fd) :
    Pipe.get_format_str _pid _fd = String.mk (format_str _pid _fd) := by
  have h := format_str_length_le _pid _fd hp hf
  unfold Pipe.get_format_str snprintf
  rw [List.take_of_length_le (by omega)]

theorem Pipe.open_trace {σ : Type} (os : OS σ) (_pid _fd _flags : Int) (w : World σ) :
    ∃ r, (Pipe.open os _pid _fd _flags w).world.trace
      = w.trace ++ [Event.sys_open (Pipe.get_format_str _pid _fd) _flags r] := by
  cases h : os.sys_open w.os (Pipe.get_format_str _pid _fd) _flags with
  | none => exact ⟨none, by simp [Pipe.open, World.sys_open, h, Outcome.world]⟩
  | some x =>
    obtain ⟨fd, s⟩ := x
    refine ⟨some fd, ?_⟩
    by_cases hfd : fd ≤ 0 <;> simp [Pipe.open, World.sys_open, h, hfd, Outcome.world]

/-- C7: for 32-bit `pid` and `fd` the path that `Pipe::open` hands to the
operating system is `"/proc/" ++ decimal pid ++ "/fd/" ++ decimal fd`,
the 64-byte buffer of `get_format_str` truncates nothing, the path has at
most 32 characters, and 32 is reached. -/
theorem Pipe.open_path_exact {σ : Type} (os : OS σ) (w : World σ) (_pid _fd _flags : Int)
    (hp : isInt32 _pid) (hf : isInt32 _fd) :
    Pipe.get_format_str _pid _fd
        = String.mk ("/proc/".toList ++ decimal _pid ++ "/fd/".toList ++ decimal _fd)
      ∧ snprintf 64 _pid _fd = format_str _pid _fd
      ∧ (Pipe.get_format_str _pid _fd).length ≤ 32
      ∧ (Pipe.get_format_str (-2147483648) (-2147483648)).length = 32
      ∧ ∃ r, (Pipe.open os _pid _fd _flags w).world.trace
          = w.trace ++ [Event.sys_open
              (String.mk ("/proc/".toList ++ decimal _pid ++ "/fd/".toList ++ decimal _fd))
              _flags r] := by
  have hx := get_format_str_exact _pid _fd hp hf
  have hl := format_str_length_le _pid _fd hp hf
  refine ⟨hx, ?_, ?_, by decide, ?_⟩
  · unfold snprintf
    rw [List.take_of_length_le (by omega)]
  · rw [hx]; exact hl
  · obtain ⟨r, hr⟩ := Pipe.open_trace os _pid _fd _flags w
    exact ⟨r, by rw [hr, hx]; rfl⟩

theorem Pipe.open_path_exact_witness :
    isInt32 100 ∧ isInt32 3 ∧
    Pipe.get_format_str 100 3 = "/proc/100/fd/3" :=
  ⟨by decide, by decide,
    (Pipe.open_path_exact Kernel.os (World.start Kernel.standard) 100 3 O_RDONLY
      (by decide) (by decide)).1.trans (by decide)⟩

/-! ## Preconditions of the member functions -/

theorem Pipe.read_throws_iff {σ : Type} (os : OS σ) (p : Pipe) (w : World σ) :
    (Pipe.read os p w).1.is_throw = true ↔ p.read_fd ≤ 0 := by
  unfold Pipe.read
  by_cases h : p.read_fd ≤ 0
  · simp [h, Outcome.is_throw]
  · simp only [h, if_false, iff_false]
    rcases hr : World.read os w p.read_fd PIPE_MAX_BUFFER_SIZE with ⟨_ | ⟨bytes, data⟩, w1⟩ <;>
      simp [Outcome.is_throw]

theorem Pipe.write_throws_iff {σ : Type} (os : OS σ) (p : Pipe) (data : Bytes) (w : World σ) :
    (Pipe.write os p data w).1.is_throw = true ↔ p.write_fd ≤ 0 := by
  unfold Pipe.write
  by_cases h : p.write_fd ≤ 0
  · simp [h, Outcome.is_throw]
  · simp only [h, if_false, iff_false]
    rcases hr : World.write os w p.write_fd data with ⟨_ | bytes, w1⟩ <;>
      simp [Outcome.is_throw]

/-- C2: on a default-constructed `Pipe` (descriptors -1) `read()` and
`write(data)` leave by the precondition error in the unchanged world (no
system call is issued) and leave the object unchanged; for every `Pipe`,
`read()` throws exactly when `read_fd ≤ 0` and `write(data)` exactly when
`write_fd ≤ 0`. -/
theorem Pipe.precondition_violation {σ : Type} (os : OS σ) (w : World σ)
    (buffer data : Bytes) :
    Pipe.read os (Pipe.ctor buffer) w
        = (.throw "Cannot read, the pipe read file descriptor is not initialized." w,
           Pipe.ctor buffer)
      ∧ Pipe.write os (Pipe.ctor buffer) data w
        = (.throw "Cannot write, the pipe write file descriptor is not initialized." w,
           Pipe.ctor buffer)
      ∧ (∀ p : Pipe, (Pipe.read os p w).1.is_throw = true ↔ p.read_fd ≤ 0)
      ∧ (∀ p : Pipe, (Pipe.write os p data w).1.is_throw = true ↔ p.write_fd ≤ 0)
      ∧ (∀ p : Pipe, p.read_fd ≤ 0 →
          (Pipe.read os p w).1.world = w ∧ (Pipe.read os p w).2 = p)
      ∧ (∀ p : Pipe, p.write_fd ≤ 0 →
          (Pipe.write os p data w).1.world = w ∧ (Pipe.write os p data w).2 = p) := by
  refine ⟨by simp [Pipe.read, Pipe.ctor], by simp [Pipe.write, Pipe.ctor],
    fun p => Pipe.read_throws_iff os p w, fun p => Pipe.write_throws_iff os p data w, ?_, ?_⟩
  · intro p h
    simp [Pipe.read, h, Outcome.world]
  · intro p h
    simp [Pipe.write, h, Outcome.world]

/-! ## The static helpers when the path cannot be opened -/

/-- C3: when the operating system does not open `/proc/<pid>/fd/<fd>`
(the value of `::open` is not positive), the static `read` returns the
empty string and the static `write` returns -1; both return normally,
after the system call `open` alone and one line of diagnostics. -/
theorem Pipe.static_helpers_open_failure {σ : Type} (os : OS σ) (w : World σ)
    (_pid _fd : Int) (data : Bytes) (r1 r2 : Int) (s1 s2 : σ)
    (hr : os.sys_open w.os (Pipe.get_format_str _pid _fd) O_RDONLY = some (r1, s1))
    (hr0 : r1 ≤ 0)
    (hw : os.sys_open w.os (Pipe.get_format_str _pid _fd) O_WRONLY = some (r2, s2))
    (hw0 : r2 ≤ 0) :
    Pipe.static_read os _pid _fd w
        = .ret []
            { os := s1,
              trace := w.trace ++ [Event.sys_open (Pipe.get_format_str _pid _fd) O_RDONLY (some r1)],
              out := w.out ++ ["Error: Can't open pipe. Path: " ++ Pipe.get_format_str _pid _fd] }
      ∧ Pipe.static_write os _pid _fd data w
        = .ret (-1)
            { os := s2,
              trace := w.trace ++ [Event.sys_open (Pipe.get_format_str _pid _fd) O_WRONLY (some r2)],
              out := w.out ++ ["Error: Can't open pipe. Path: " ++ Pipe.get_format_str _pid _fd] } := by
  constructor
  · simp [Pipe.static_read, Pipe.open, World.sys_open, hr, hr0, World.cout]
  · simp [Pipe.static_write, Pipe.open, World.sys_open, hw, hw0, World.cout]

theorem Pipe.static_helpers_open_failure_witness :
    Kernel.os.sys_open (World.start Kernel.standard).os (Pipe.get_format_str 4242 7) O_RDONLY
        = some (-1, Kernel.standard)
      ∧ Kernel.os.sys_open (World.start Kernel.standard).os (Pipe.get_format_str 4242 7) O_WRONLY
        = some (-1, Kernel.standard)
      ∧ Pipe.static_read Kernel.os 4242 7 (World.start Kernel.standard)
        = .ret []
            { os := Kernel.standard,
              trace := [Event.sys_open "/proc/4242/fd/7" O_RDONLY (some (-1))],
              out := ["Error: Can't open pipe. Path: /proc/4242/fd/7"] }
      ∧ Pipe.static_write Kernel.os 4242 7 (bytes_of "ping") (World.start Kernel.standard)
        = .ret (-1)
            { os := Kernel.standard,
              trace := [Event.sys_open "/proc/4242/fd/7" O_WRONLY (some (-1))],
              out := ["Error: Can't open pipe. Path: /proc/4242/fd/7"] } :=
  have h := Pipe.static_helpers_open_failure Kernel.os (World.start Kernel.standard) 4242 7
    (bytes_of "ping") (-1) (-1) Kernel.standard Kernel.standard
    (by decide) (by decide) (by decide) (by decide)
  ⟨by decide, by decide, h.1, h.2⟩

/-! ## One write call per `write` -/

theorem toInt32_of_isInt32 (x : Int) (h : isInt32 x) : toInt32 x = x := by
  unfold isInt32 at h
  unfold toInt32
  omega

/-- C5: on a `Pipe` with `write_fd > 0`, `write(data)` issues exactly one
system call, a `::write` on `write_fd` offering all of `data`; when that
call returns `k` (within what `write` may return), `write(data)` returns
`k` itself, which is at most the length of `data`, and nothing else is
written: a short count is not retried. -/
theorem Pipe.write_single_call {σ : Type} (os : OS σ) (p : Pipe) (data : Bytes) (w : World σ)
    (hfd : p.write_fd > 0) :
    (∃ r, (Pipe.write os p data w).1.world.trace
        = w.trace ++ [Event.sys_write p.write_fd data r])
      ∧ (Pipe.write os p data w).2 = p
      ∧ ∀ (k : Int) (s : σ), os.write w.os p.write_fd data = some (k, s) →
          write_contract data k →
          Pipe.write os p data w
              = (.ret k { os := s,
                          trace := w.trace ++ [Event.sys_write p.write_fd data (some k)],
                          out := w.out }, p)
            ∧ k ≤ data.length := by
  have hn : ¬ p.write_fd ≤ 0 := by omega
  refine ⟨?_, ?_, ?_⟩
  · cases h : os.write w.os p.write_fd data with
    | none => exact ⟨none, by simp [Pipe.write, World.write, hn, h, Outcome.world]⟩
    | some x =>
      obtain ⟨k, s⟩ := x
      exact ⟨some k, by simp [Pipe.write, World.write, hn, h, Outcome.world]⟩
  · cases h : os.write w.os p.write_fd data with
    | none => simp [Pipe.write, World.write, hn, h]
    | some x => simp [Pipe.write, World.write, hn, h]
  · intro k s h hk
    have hk32 : toInt32 k = k := by
      apply toInt32_of_isInt32
      unfold write_contract at hk
      unfold isInt32
      omega
    exact ⟨by simp [Pipe.write, World.write, hn, h, hk32], hk.2.1⟩

theorem Pipe.write_single_call_witness :
    (4 : Int) > 0
      ∧ write_contract (bytes_of "hello") 3
      ∧ Pipe.write OS.short { pid := 1, write_fd := 4, read_fd := 3, buffer := [] }
          (bytes_of "hello") (World.start [])
        = (.ret 3 { os := bytes_of "hel",
                    trace := [Event.sys_write 4 (bytes_of "hello") (some 3)],
                    out := [] },
           { pid := 1, write_fd := 4, read_fd := 3, buffer := [] }) :=
  ⟨by decide, by decide,
    ((Pipe.write_single_call OS.short { pid := 1, write_fd := 4, read_fd := 3, buffer := [] }
        (bytes_of "hello") (World.start []) (by decide)).2.2 3 (bytes_of "hel")
      (by decide) (by decide)).1⟩

/-! ## The descriptor value 0 -/

set_option maxRecDepth 100000 in
/-- C8 (evaluation at the failing input): in a process whose standard
input is closed, `pipe` hands out descriptor 0 as the read end; `init()`
returns normally and stores `read_fd = 0`, and the `read()` that follows
throws the precondition error. -/
theorem Pipe.init_stores_descriptor_zero :
    Pipe.init Kernel.os (Pipe.ctor []) (World.start Kernel.no_stdin)
        = (.ret ()
            { os := { pid := 100,
                      fds := [(0, FdObj.pipe_read 0), (3, FdObj.pipe_write 0),
                              (1, FdObj.null), (2, FdObj.null)],
                      pipes := [[]], nofile := 1024, procs := [] },
              trace := [Event.sys_pipe 0 0 3, Event.sys_getpid 100],
              out := [] },
           { pid := 100, write_fd := 3, read_fd := 0, buffer := [] })
      ∧ (Pipe.read Kernel.os
            (Pipe.init Kernel.os (Pipe.ctor []) (World.start Kernel.no_stdin)).2
            (Pipe.init Kernel.os (Pipe.ctor []) (World.start Kernel.no_stdin)).1.world).1
        = .throw "Cannot read, the pipe read file descriptor is not initialized."
            (Pipe.init Kernel.os (Pipe.ctor []) (World.start Kernel.no_stdin)).1.world := by
  decide

set_option maxRecDepth 100000 in
/-- C9 (evaluation at the failing input): a process whose standard input
is closed attaches to descriptor 3 of process 200.  The system call
`open` succeeds and returns descriptor 0; `Pipe::open` throws, the static
`read` returns the empty string without a `close`, and descriptor 0 stays
open in the process.  The static `write` on descriptor 4 of process 200
behaves alike and returns -1. -/
theorem Pipe.static_read_leaks_descriptor_zero :
    Pipe.static_read Kernel.os 200 3 (World.start Kernel.no_stdin_peer)
        = .ret []
            { os := { Kernel.no_stdin_peer with
                      fds := (0, FdObj.pipe_read 0) :: Kernel.no_stdin_peer.fds },
              trace := [Event.sys_open "/proc/200/fd/3" O_RDONLY (some 0)],
              out := ["Error: Can't open pipe. Path: /proc/200/fd/3"] }
      ∧ Kernel.no_stdin_peer.open_fds = [1, 2]
      ∧ (Pipe.static_read Kernel.os 200 3 (World.start Kernel.no_stdin_peer)).world.os.open_fds
        = [0, 1, 2]
      ∧ Pipe.static_write Kernel.os 200 4 (bytes_of "ping") (World.start Kernel.no_stdin_peer)
        = .ret (-1)
            { os := { Kernel.no_stdin_peer with
                      fds := (0, FdObj.pipe_write 0) :: Kernel.no_stdin_peer.fds },
              trace := [Event.sys_open "/proc/200/fd/4" O_WRONLY (some 0)],
              out := ["Error: Can't open pipe. Path: /proc/200/fd/4"] } := by
  decide

/-! ## Teardown -/

theorem Kernel.sys_close_not_open (k : Kernel) (fd : Int) :
    fd ∉ (Kernel.sys_close k fd).2.open_fds := by
  unfold Kernel.sys_close
  cases h : k.fds.lookup fd with
  | none =>
    simp only [Kernel.open_fds, List.mem_map, not_exists, not_and]
    intro e he hfd
    have : ∀ (l : List (Int × FdObj)), e ∈ l → l.lookup fd ≠ none := by
      intro l
      induction l with
      | nil => intro hm; cases hm
      | cons x t ih =>
        intro hm
        obtain ⟨a, b⟩ := x
        by_cases hab : fd = a
        · subst hab; simp [List.lookup]
        · have hb : (fd == a) = false := by simpa using hab
          simp only [List.lookup, hb]
          rcases List.mem_cons.1 hm with hx | ht
          · exfalso; apply hab; rw [← hfd, hx]
          · exact ih ht
    exact this k.fds he h
  | some o =>
    simp [Kernel.open_fds, List.mem_filter]

theorem Kernel.sys_close_subset (k : Kernel) (fd x : Int)
    (hx : x ∈ (Kernel.sys_close k fd).2.open_fds) : x ∈ k.open_fds := by
  unfold Kernel.sys_close at hx
  cases h : k.fds.lookup fd with
  | none => simpa [h] using hx
  | some o =>
    simp only [h, Kernel.open_fds, List.mem_map, List.mem_filter] at hx
    obtain ⟨e, ⟨he, _⟩, rfl⟩ := hx
    exact List.mem_map.2 ⟨e, he, rfl⟩

/-- C10 (as amended): the destructor of a `Pipe` whose two descriptors
are positive issues exactly two system calls, `close(write_fd)` then
`close(read_fd)`, and leaves the data members as they were; run again on
the resulting object it issues the same two calls again.  On the
reference kernel both descriptors are out of the descriptor table after
the first run.  The destructor of a default-constructed `Pipe` issues no
call. -/
theorem Pipe.dtor_closes_both_not_idempotent {σ : Type} (os : OS σ) (w : World σ) (p : Pipe)
    (hw : p.write_fd > 0) (hr : p.read_fd > 0) :
    (Pipe.dtor os p w).1 = p
      ∧ (Pipe.dtor os p w).2.trace
        = w.trace ++ [Event.sys_close p.write_fd, Event.sys_close p.read_fd]
      ∧ (Pipe.dtor os (Pipe.dtor os p w).1 (Pipe.dtor os p w).2).2.trace
        = w.trace ++ [Event.sys_close p.write_fd, Event.sys_close p.read_fd,
                      Event.sys_close p.write_fd, Event.sys_close p.read_fd]
      ∧ (∀ wk : World Kernel,
          p.write_fd ∉ (Pipe.dtor Kernel.os p wk).2.os.open_fds
            ∧ p.read_fd ∉ (Pipe.dtor Kernel.os p wk).2.os.open_fds)
      ∧ (∀ buffer : Bytes, Pipe.dtor os (Pipe.ctor buffer) w = (Pipe.ctor buffer, w)) := by
  refine ⟨rfl, by simp [Pipe.dtor, hw, hr, World.close],
    by simp [Pipe.dtor, hw, hr, World.close], ?_, ?_⟩
  · intro wk
    simp only [Pipe.dtor, hw, hr, if_true, World.close, Kernel.os]
    constructor
    · intro h
      exact Kernel.sys_close_not_open wk.os p.write_fd (Kernel.sys_close_subset _ _ _ h)
    · exact Kernel.sys_close_not_open _ p.read_fd
  · intro buffer
    simp [Pipe.dtor, Pipe.ctor]

set_option maxRecDepth 100000 in
theorem Pipe.dtor_closes_both_not_idempotent_witness :
    (4 : Int) > 0 ∧ (3 : Int) > 0
      ∧ Pipe.init Kernel.os (Pipe.ctor []) (World.start Kernel.standard)
        = (.ret () { os := Kernel.piped, trace := [Event.sys_pipe 0 3 4, Event.sys_getpid 100],
                     out := [] },
           { pid := 100, write_fd := 4, read_fd := 3, buffer := [] })
      ∧ (Pipe.dtor Kernel.os { pid := 100, write_fd := 4, read_fd := 3, buffer := [] }
          (World.start Kernel.piped)).2
        = { os := { Kernel.standard with pipes := [[]] },
            trace := [Event.sys_close 4, Event.sys_close 3], out := [] } :=
  ⟨by decide, by decide, by decide,
    World.ext (by decide)
      ((Pipe.dtor_closes_both_not_idempotent Kernel.os (World.start Kernel.piped)
        { pid := 100, write_fd := 4, read_fd := 3, buffer := [] }
        (by decide) (by decide)).2.1)
      (by decide)⟩

/-- C10 (counterexample): the `Pipe` that `init()` set up on descriptors
3 and 4 is destroyed, and the destructor is run a second time on the
resulting object and world.  The second run calls `close(4)` and
`close(3)` again: the stored descriptors were not invalidated. -/
theorem Pipe.dtor_second_run_closes_again :
    (Pipe.dtor Kernel.os { pid := 100, write_fd := 4, read_fd := 3, buffer := [] }
        (World.start Kernel.piped)).1
        = { pid := 100, write_fd := 4, read_fd := 3, buffer := [] }
      ∧ (Pipe.dtor Kernel.os { pid := 100, write_fd := 4, read_fd := 3, buffer := [] }
          (World.start Kernel.piped)).2.trace
        = [Event.sys_close 4, Event.sys_close 3]
      ∧ (Pipe.dtor Kernel.os
          (Pipe.dtor Kernel.os { pid := 100, write_fd := 4, read_fd := 3, buffer := [] }
            (World.start Kernel.piped)).1
          (Pipe.dtor Kernel.os { pid := 100, write_fd := 4, read_fd := 3, buffer := [] }
            (World.start Kernel.piped)).2).2.trace
        = [Event.sys_close 4, Event.sys_close 3, Event.sys_close 4, Event.sys_close 3] := by
  decide

/-! ## The process-wide pipe -/

theorem Kernel.free_fd_fresh (nofile : Nat) (fds : List (Int × FdObj)) (x : Int)
    (h : Kernel.free_fd nofile fds = some x) : ∀ e ∈ fds, e.1 ≠ x := by
  unfold Kernel.free_fd at h
  split at h
  · rename_i n hf
    simp only [Option.some.injEq] at h
    have hp := List.find?_some hf
    simp only [Bool.not_eq_true', List.any_eq_false, beq_iff_eq] at hp
    intro e he
    rw [← h]
    exact hp e he
  · simp at h

theorem Kernel.held_of_lookup (k : Kernel) (fd : Int) (obj : FdObj)
    (h : k.fds.lookup fd = some obj) : k.held obj = true := by
  have hmem : ∀ (l : List (Int × FdObj)), l.lookup fd = some obj → ∃ e ∈ l, e.2 = obj := by
    intro l
    induction l with
    | nil => intro hl; simp [List.lookup] at hl
    | cons x t ih =>
      intro hl
      obtain ⟨a, b⟩ := x
      by_cases hab : fd = a
      · subst hab
        simp [List.lookup] at hl
        exact ⟨(fd, b), List.mem_cons_self _ _, hl⟩
      · have hb : (fd == a) = false := by simpa using hab
        simp only [List.lookup, hb] at hl
        obtain ⟨e, he, heq⟩ := ih hl
        exact ⟨e, List.mem_cons_of_mem _ he, heq⟩
  obtain ⟨e, he, heq⟩ := hmem k.fds h
  unfold Kernel.held
  simp only [Bool.or_eq_true, List.any_eq_true, beq_iff_eq]
  exact Or.inl ⟨e, he, heq⟩

theorem Pipe.init_linked (p0 p : Pipe) (w0 w1 : World Kernel)
    (h : Pipe.init Kernel.os p0 w0 = (.ret () w1, p)) :
    Kernel.linked w1.os p.read_fd p.write_fd w0.os.pipes.length [] := by
  simp only [Pipe.init, Pipe.create_pipe, World.pipe, Kernel.os, Kernel.sys_pipe] at h
  cases hr : Kernel.free_fd w0.os.nofile w0.os.fds with
  | none => simp [hr] at h
  | some r =>
    simp only [hr] at h
    cases hw : Kernel.free_fd w0.os.nofile
        ((r, FdObj.pipe_read w0.os.pipes.length) :: w0.os.fds) with
    | none => simp [hw] at h
    | some w =>
      simp only [hw, World.getpid, ne_eq, not_true_eq_false, if_false, Prod.mk.injEq,
        Outcome.ret.injEq, true_and] at h
      obtain ⟨h1, h2⟩ := h
      subst h1 h2
      have hne : w ≠ r := by
        have := Kernel.free_fd_fresh _ _ _ hw (r, FdObj.pipe_read w0.os.pipes.length)
          (List.mem_cons_self _ _)
        exact fun e => this e.symm
      have hb : (w == r) = false := by simpa using hne
      refine ⟨by simp [List.lookup], by simp [List.lookup, hb], by simp, ?_⟩
      simp [Kernel.pending]

theorem Pipe.write_linked (p : Pipe) (w1 : World Kernel) (data buf : Bytes) (id : Nat)
    (hl : Kernel.linked w1.os p.read_fd p.write_fd id buf) (hfd : p.write_fd > 0)
    (hroom : buf.length + data.length ≤ Kernel.PIPE_CAPACITY) :
    (Pipe.write Kernel.os p data w1).1.value = some (data.length : Int)
      ∧ (Pipe.write Kernel.os p data w1).1.world.trace
        = w1.trace ++ [Event.sys_write p.write_fd data (some (data.length : Int))]
      ∧ Kernel.linked (Pipe.write Kernel.os p data w1).1.world.os p.read_fd p.write_fd id
          (buf ++ data) := by
  obtain ⟨hlr, hlw, hid, hpend⟩ := hl
  have hn : ¬ p.write_fd ≤ 0 := by omega
  have hcap : Kernel.PIPE_CAPACITY = 65536 := rfl
  have h32 : toInt32 (data.length : Int) = (data.length : Int) := by
    apply toInt32_of_isInt32
    unfold isInt32
    omega
  by_cases hd : data = []
  · subst hd
    simp only [Pipe.write, hn, if_false, World.write, Kernel.os, Kernel.sys_write, hlw,
      if_true, Outcome.value, Outcome.world, List.length_nil, List.append_nil]
    exact ⟨by decide, rfl, hlr, hlw, hid, hpend⟩
  · have hheld := Kernel.held_of_lookup w1.os _ _ hlr
    have hfit : data.length ≤ Kernel.PIPE_CAPACITY - (w1.os.pending id).length := by
      rw [hpend]; omega
    simp only [Pipe.write, hn, if_false, World.write, Kernel.os, Kernel.sys_write, hlw, hd,
      hheld, hfit, if_true, Bool.not_true, Bool.false_eq_true, Outcome.value, Outcome.world,
      h32]
    refine ⟨trivial, trivial, hlr, hlw, by simpa using hid, ?_⟩
    simp only [Kernel.pending] at hpend ⊢
    rw [List.getD_eq_getElem _ _ hid] at hpend
    simp [hid, hpend]

theorem Pipe.read_linked (p : Pipe) (w1 : World Kernel) (buf : Bytes) (id : Nat)
    (hl : Kernel.linked w1.os p.read_fd p.write_fd id buf) (hfd : p.read_fd > 0)
    (hne : buf ≠ []) (hlen : buf.length ≤ PIPE_MAX_BUFFER_SIZE) :
    (Pipe.read Kernel.os p w1).1.value = some buf
      ∧ (Pipe.read Kernel.os p w1).1.world.trace
        = w1.trace ++ [Event.sys_read p.read_fd PIPE_MAX_BUFFER_SIZE (some (buf.length : Int))]
      ∧ Kernel.linked (Pipe.read Kernel.os p w1).1.world.os p.read_fd p.write_fd id [] := by
  obtain ⟨hlr, hlw, hid, hpend⟩ := hl
  have hn : ¬ p.read_fd ≤ 0 := by omega
  have hsz : PIPE_MAX_BUFFER_SIZE = 8192 := rfl
  have hmax : Kernel.MAX_RW_COUNT = 2147479552 := rfl
  have hmin : min (min PIPE_MAX_BUFFER_SIZE Kernel.MAX_RW_COUNT) buf.length = buf.length := by
    omega
  have hpos : (buf.length : Int) > 0 := by
    have : 0 < buf.length := List.length_pos.2 hne
    omega
  simp only [Pipe.read, hn, if_false, World.read, Kernel.os, Kernel.sys_read, hlr, hpend, hne,
    hmin, List.take_length, List.drop_length, Outcome.value, Outcome.world]
  refine ⟨?_, trivial, hlr, hlw, by simpa using hid, ?_⟩
  · simp only [string_of_buffer, hpos, if_true, fill_buffer, Int.toNat_ofNat, Option.some.injEq]
    rw [List.take_take, min_eq_left hlen, List.take_left']
    rfl
  · simp [Kernel.pending, hid]

/-- C1 (as amended): on the reference kernel, let `init()` return on a
`Pipe` and store two positive descriptors.  For every payload `P` of 1 to
8192 bytes, `write(P)` returns the length of `P` and the one `read()`
that follows returns exactly `P`, zero bytes included; the two calls
issue one `::write` and one `::read`. -/
theorem Pipe.write_read_roundtrip (p0 p : Pipe) (w0 w1 : World Kernel) (P : Bytes)
    (hinit : Pipe.init Kernel.os p0 w0 = (.ret () w1, p))
    (hr : p.read_fd > 0) (hw : p.write_fd > 0)
    (hne : P ≠ []) (hlen : P.length ≤ PIPE_MAX_BUFFER_SIZE) :
    (Pipe.write Kernel.os p P w1).1.value = some (P.length : Int)
      ∧ (Pipe.read Kernel.os p (Pipe.write Kernel.os p P w1).1.world).1.value = some P
      ∧ (Pipe.read Kernel.os p (Pipe.write Kernel.os p P w1).1.world).1.world.trace
        = w1.trace ++ [Event.sys_write p.write_fd P (some (P.length : Int)),
                       Event.sys_read p.read_fd PIPE_MAX_BUFFER_SIZE (some (P.length : Int))] := by
  have hl := Pipe.init_linked p0 p w0 w1 hinit
  have hsz : PIPE_MAX_BUFFER_SIZE = 8192 := rfl
  have hcap : Kernel.PIPE_CAPACITY = 65536 := rfl
  obtain ⟨hv, ht, hl2⟩ := Pipe.write_linked p w1 P [] _ hl hw (by simp; omega)
  rw [List.nil_append] at hl2
  obtain ⟨hv3, ht3, _⟩ := Pipe.read_linked p _ P _ hl2 hr hne hlen
  refine ⟨hv, hv3, ?_⟩
  rw [ht3, ht, List.append_assoc]
  rfl

set_option maxRecDepth 100000 in
theorem Pipe.write_read_roundtrip_witness :
    Pipe.init Kernel.os (Pipe.ctor []) (World.start Kernel.standard)
        = (.ret () { os := Kernel.piped, trace := [Event.sys_pipe 0 3 4, Event.sys_getpid 100],
                     out := [] },
           { pid := 100, write_fd := 4, read_fd := 3, buffer := [] })
      ∧ (Pipe.read Kernel.os { pid := 100, write_fd := 4, read_fd := 3, buffer := [] }
          (Pipe.write Kernel.os { pid := 100, write_fd := 4, read_fd := 3, buffer := [] }
            [104, 0, 105]
            { os := Kernel.piped, trace := [Event.sys_pipe 0 3 4, Event.sys_getpid 100],
              out := [] }).1.world).1.value
        = some [104, 0, 105] :=
  ⟨by decide,
    (Pipe.write_read_roundtrip (Pipe.ctor []) { pid := 100, write_fd := 4, read_fd := 3, buffer := [] }
      (World.start Kernel.standard)
      { os := Kernel.piped, trace := [Event.sys_pipe 0 3 4, Event.sys_getpid 100], out := [] }
      [104, 0, 105] (by decide) (by decide) (by decide) (by decide) (by decide)).2.1⟩

set_option maxRecDepth 100000 in
/-- C1 (counterexample): the empty payload.  On the `Pipe` that `init()`
set up on descriptors 3 and 4, `write` of the empty string returns 0, and
the `read()` that follows never returns: the pipe is empty and its write
end is open.  Besides, in a process whose standard input is closed
`init()` stores `read_fd = 0`, and after `write` has returned 1 for a
payload of one byte, `read()` throws the precondition error. -/
theorem Pipe.read_after_empty_write_blocks :
    Pipe.init Kernel.os (Pipe.ctor []) (World.start Kernel.standard)
        = (.ret () { os := Kernel.piped, trace := [Event.sys_pipe 0 3 4, Event.sys_getpid 100],
                     out := [] },
           { pid := 100, write_fd := 4, read_fd := 3, buffer := [] })
      ∧ (Pipe.write Kernel.os { pid := 100, write_fd := 4, read_fd := 3, buffer := [] } []
          { os := Kernel.piped, trace := [Event.sys_pipe 0 3 4, Event.sys_getpid 100],
            out := [] }).1
        = .ret 0 { os := Kernel.piped,
                   trace := [Event.sys_pipe 0 3 4, Event.sys_getpid 100,
                             Event.sys_write 4 [] (some 0)],
                   out := [] }
      ∧ (Pipe.read Kernel.os { pid := 100, write_fd := 4, read_fd := 3, buffer := [] }
          { os := Kernel.piped,
            trace := [Event.sys_pipe 0 3 4, Event.sys_getpid 100, Event.sys_write 4 [] (some 0)],
            out := [] }).1
        = .hang { os := Kernel.piped,
                  trace := [Event.sys_pipe 0 3 4, Event.sys_getpid 100,
                            Event.sys_write 4 [] (some 0),
                            Event.sys_read 3 PIPE_MAX_BUFFER_SIZE none],
                  out := [] }
      ∧ (Pipe.init Kernel.os (Pipe.ctor []) (World.start Kernel.no_stdin)).2
        = { pid := 100, write_fd := 3, read_fd := 0, buffer := [] }
      ∧ (Pipe.write Kernel.os { pid := 100, write_fd := 3, read_fd := 0, buffer := [] } [97]
          (Pipe.init Kernel.os (Pipe.ctor []) (World.start Kernel.no_stdin)).1.world).1.value
        = some 1
      ∧ (Pipe.read Kernel.os { pid := 100, write_fd := 3, read_fd := 0, buffer := [] }
          (Pipe.write Kernel.os { pid := 100, write_fd := 3, read_fd := 0, buffer := [] } [97]
            (Pipe.init Kernel.os (Pipe.ctor [])
              (World.start Kernel.no_stdin)).1.world).1.world).1.is_throw
        = true := by
  decide

/-- C4 (as amended): on the reference kernel, let `init()` return on a
`Pipe` and store two positive descriptors.  For payloads `A` and `B` of
together 1 to 8192 bytes, `write(A)` then `write(B)` return the two
lengths and the one `read()` that follows returns `A ++ B`, nothing in
between. -/
theorem Pipe.two_writes_one_read (p0 p : Pipe) (w0 w1 : World Kernel) (A B : Bytes)
    (hinit : Pipe.init Kernel.os p0 w0 = (.ret () w1, p))
    (hr : p.read_fd > 0) (hw : p.write_fd > 0)
    (hne : A ++ B ≠ []) (hlen : A.length + B.length ≤ PIPE_MAX_BUFFER_SIZE) :
    (Pipe.write Kernel.os p A w1).1.value = some (A.length : Int)
      ∧ (Pipe.write Kernel.os p B (Pipe.write Kernel.os p A w1).1.world).1.value
        = some (B.length : Int)
      ∧ (Pipe.read Kernel.os p
          (Pipe.write Kernel.os p B (Pipe.write Kernel.os p A w1).1.world).1.world).1.value
        = some (A ++ B) := by
  have hl := Pipe.init_linked p0 p w0 w1 hinit
  have hsz : PIPE_MAX_BUFFER_SIZE = 8192 := rfl
  have hcap : Kernel.PIPE_CAPACITY = 65536 := rfl
  obtain ⟨hv, _, hl2⟩ := Pipe.write_linked p w1 A [] _ hl hw (by simp; omega)
  rw [List.nil_append] at hl2
  obtain ⟨hv2, _, hl3⟩ := Pipe.write_linked p _ B A _ hl2 hw (by omega)
  obtain ⟨hv3, _, _⟩ := Pipe.read_linked p _ (A ++ B) _ hl3 hr hne
    (by rw [List.length_append]; exact hlen)
  exact ⟨hv, hv2, hv3⟩

set_option maxRecDepth 100000 in
theorem Pipe.two_writes_one_read_witness :
    Pipe.init Kernel.os (Pipe.ctor []) (World.start Kernel.standard)
        = (.ret () { os := Kernel.piped, trace := [Event.sys_pipe 0 3 4, Event.sys_getpid 100],
                     out := [] },
           { pid := 100, write_fd := 4, read_fd := 3, buffer := [] })
      ∧ (Pipe.read Kernel.os { pid := 100, write_fd := 4, read_fd := 3, buffer := [] }
          (Pipe.write Kernel.os { pid := 100, write_fd := 4, read_fd := 3, buffer := [] }
            (bytes_of "world")
            (Pipe.write Kernel.os { pid := 100, write_fd := 4, read_fd := 3, buffer := [] }
              (bytes_of "hello")
              { os := Kernel.piped, trace := [Event.sys_pipe 0 3 4, Event.sys_getpid 100],
                out := [] }).1.world).1.world).1.value
        = some (bytes_of "helloworld") :=
  ⟨by decide,
    (Pipe.two_writes_one_read (Pipe.ctor []) { pid := 100, write_fd := 4, read_fd := 3, buffer := [] }
      (World.start Kernel.standard)
      { os := Kernel.piped, trace := [Event.sys_pipe 0 3 4, Event.sys_getpid 100], out := [] }
      (bytes_of "hello") (bytes_of "world")
      (by decide) (by decide) (by decide) (by decide) (by decide)).2.2⟩

set_option maxRecDepth 100000 in
/-- C4 (counterexample): two empty payloads.  On the `Pipe` that `init()`
set up on descriptors 3 and 4, both writes return 0 and the `read()` that
follows never returns.  Besides, in a process whose standard input is
closed `init()` stores `read_fd = 0`, and after the writes of "hello" and
"world" have returned 5 each, `read()` throws the precondition error. -/
theorem Pipe.read_after_two_empty_writes_blocks :
    (Pipe.write Kernel.os { pid := 100, write_fd := 4, read_fd := 3, buffer := [] } []
          (Pipe.init Kernel.os (Pipe.ctor []) (World.start Kernel.standard)).1.world).1.value
        = some 0
      ∧ (Pipe.write Kernel.os { pid := 100, write_fd := 4, read_fd := 3, buffer := [] } []
          (Pipe.write Kernel.os { pid := 100, write_fd := 4, read_fd := 3, buffer := [] } []
            (Pipe.init Kernel.os (Pipe.ctor []) (World.start Kernel.standard)).1.world).1.world).1.value
        = some 0
      ∧ (Pipe.read Kernel.os { pid := 100, write_fd := 4, read_fd := 3, buffer := [] }
          (Pipe.write Kernel.os { pid := 100, write_fd := 4, read_fd := 3, buffer := [] } []
            (Pipe.write Kernel.os { pid := 100, write_fd := 4, read_fd := 3, buffer := [] } []
              (Pipe.init Kernel.os (Pipe.ctor [])
                (World.start Kernel.standard)).1.world).1.world).1.world).1.is_hang
        = true
      ∧ (Pipe.init Kernel.os (Pipe.ctor []) (World.start Kernel.standard)).2
        = { pid := 100, write_fd := 4, read_fd := 3, buffer := [] }
      ∧ (Pipe.init Kernel.os (Pipe.ctor []) (World.start Kernel.no_stdin)).2
        = { pid := 100, write_fd := 3, read_fd := 0, buffer := [] }
      ∧ (Pipe.write Kernel.os { pid := 100, write_fd := 3, read_fd := 0, buffer := [] }
          (bytes_of "world")
          (Pipe.write Kernel.os { pid := 100, write_fd := 3, read_fd := 0, buffer := [] }
            (bytes_of "hello")
            (Pipe.init Kernel.os (Pipe.ctor [])
              (World.start Kernel.no_stdin)).1.world).1.world).1.value
        = some 5
      ∧ (Pipe.read Kernel.os { pid := 100, write_fd := 3, read_fd := 0, buffer := [] }
          (Pipe.write Kernel.os { pid := 100, write_fd := 3, read_fd := 0, buffer := [] }
            (bytes_of "world")
            (Pipe.write Kernel.os { pid := 100, write_fd := 3, read_fd := 0, buffer := [] }
              (bytes_of "hello")
              (Pipe.init Kernel.os (Pipe.ctor [])
                (World.start Kernel.no_stdin)).1.world).1.world).1.world).1.is_throw
        = true := by
  decide

/-! ## Further facts about the endpoints -/

theorem Kernel.free_fd_nonneg (nofile : Nat) (fds : List (Int × FdObj)) (x : Int)
    (h : Kernel.free_fd nofile fds = some x) : 0 ≤ x := by
  unfold Kernel.free_fd at h
  split at h
  · simp only [Option.some.injEq] at h
    rw [← h]
    exact Int.ofNat_nonneg _
  · simp at h

/-- On the reference kernel an `init()` that returns stores the id of the
process and two distinct descriptors that are not negative; both are
positive when descriptor 0 is open at the time of the call. -/
theorem Pipe.init_endpoints (p0 p : Pipe) (w0 w1 : World Kernel)
    (h : Pipe.init Kernel.os p0 w0 = (.ret () w1, p)) :
    p.pid = w0.os.pid ∧ p.read_fd ≠ p.write_fd ∧ 0 ≤ p.read_fd ∧ 0 ≤ p.write_fd
      ∧ (0 ∈ w0.os.open_fds → 0 < p.read_fd ∧ 0 < p.write_fd) := by
  simp only [Pipe.init, Pipe.create_pipe, World.pipe, Kernel.os, Kernel.sys_pipe] at h
  cases hr : Kernel.free_fd w0.os.nofile w0.os.fds with
  | none => simp [hr] at h
  | some r =>
    simp only [hr] at h
    cases hw : Kernel.free_fd w0.os.nofile
        ((r, FdObj.pipe_read w0.os.pipes.length) :: w0.os.fds) with
    | none => simp [hw] at h
    | some w =>
      simp only [hw, World.getpid, ne_eq, not_true_eq_false, if_false, Prod.mk.injEq,
        Outcome.ret.injEq, true_and] at h
      obtain ⟨h1, h2⟩ := h
      subst h1 h2
      have hfr := Kernel.free_fd_fresh _ _ _ hr
      have hfw := Kernel.free_fd_fresh _ _ _ hw
      have hr0 := Kernel.free_fd_nonneg _ _ _ hr
      have hw0 := Kernel.free_fd_nonneg _ _ _ hw
      refine ⟨rfl, ?_, hr0, hw0, ?_⟩
      · exact hfw (r, FdObj.pipe_read w0.os.pipes.length) (List.mem_cons_self _ _)
      · intro h0
        simp only [Kernel.open_fds, List.mem_map] at h0
        obtain ⟨e, he, he0⟩ := h0
        have hr1 : r ≠ 0 := fun hx => hfr e he (by rw [he0, hx])
        have hw1 : w ≠ 0 := fun hx => hfw e (List.mem_cons_of_mem _ he) (by rw [he0, hx])
        have hr2 : 0 < r := by omega
        have hw2 : 0 < w := by omega
        exact ⟨hr2, hw2⟩

/-- When the system call `open` returns a positive descriptor and the
transfer returns, each static helper issues `open`, one transfer and one
`close` of that descriptor, in this order. -/
theorem Pipe.static_helpers_close_positive {σ : Type} (os : OS σ) (w : World σ)
    (_pid _fd r : Int) (s : σ) (data : Bytes) (hpos : r > 0) :
    (os.sys_open w.os (Pipe.get_format_str _pid _fd) O_RDONLY = some (r, s) →
        ∀ n got s1, os.read s r PIPE_MAX_BUFFER_SIZE = some ((n, got), s1) →
          (Pipe.static_read os _pid _fd w).world.trace
            = w.trace ++ [Event.sys_open (Pipe.get_format_str _pid _fd) O_RDONLY (some r),
                          Event.sys_read r PIPE_MAX_BUFFER_SIZE (some n), Event.sys_close r])
      ∧ (os.sys_open w.os (Pipe.get_format_str _pid _fd) O_WRONLY = some (r, s) →
        ∀ n s1, os.write s r data = some (n, s1) →
          (Pipe.static_write os _pid _fd data w).world.trace
            = w.trace ++ [Event.sys_open (Pipe.get_format_str _pid _fd) O_WRONLY (some r),
                          Event.sys_write r data (some n), Event.sys_close r]) := by
  have hn : ¬ r ≤ 0 := by omega
  constructor
  · intro ho n got s1 hrd
    simp [Pipe.static_read, Pipe.open, World.sys_open, ho, hn, World.read, hrd, World.close,
      Outcome.world]
  · intro ho n s1 hwr
    simp [Pipe.static_write, Pipe.open, World.sys_open, ho, hn, hpos, World.write, hwr,
      World.close, Outcome.world]

set_option maxRecDepth 100000 in
/-- A run of `StaticPipe` on the reference kernel: the getters return the
same values before and after a write and a read, and `pipe` is called
once. -/
theorem StaticPipe.run_sample :
    (StaticPipe.run Kernel.os
        [Op.get_pid, Op.write (bytes_of "hello"), Op.get_read_fd, Op.read, Op.get_write_fd,
         Op.get_pid, Op.get_read_fd]
        { spipe := none, world := World.start Kernel.standard }).1.map (fun x => x.2.value)
      = [some (Val.int 100), some (Val.int 5), some (Val.int 3),
         some (Val.bytes (bytes_of "hello")), some (Val.int 4), some (Val.int 100),
         some (Val.int 3)]
      ∧ (StaticPipe.run Kernel.os
        [Op.get_pid, Op.write (bytes_of "hello"), Op.get_read_fd, Op.read, Op.get_write_fd,
         Op.get_pid, Op.get_read_fd]
        { spipe := none, world := World.start Kernel.standard }).2.world.trace
      = [Event.sys_pipe 0 3 4, Event.sys_getpid 100,
         Event.sys_write 4 (bytes_of "hello") (some 5),
         Event.sys_read 3 PIPE_MAX_BUFFER_SIZE (some 5)] := by
  decide

end PipeSpec
